import Mathlib

/-!
Shallow embedding of the event-driven notification system
(`notification_service` event handler, `delivery_worker` task and rate
limiter, shared repositories) together with proofs about the claims on
its specification.

Conventions of the embedding:
* Python `StrEnum` values become inductive types (`NotificationStatus`,
  `Priority`); channels stay `String` exactly as the code handles them.
* Timestamps are integer minutes (quiet hours) or integer seconds
  (rate limiter); wall-clock values are passed in explicitly, mirroring
  `datetime.now(...)` / `time.time()` call sites.
* Fallible Python code (raised exceptions) is `Except`/`Option`.
* Side effects (DB writes, commits, Celery dispatch, Kafka publishes,
  Redis round-trips) are recorded in an explicit effect trace, in the
  order the Python statements execute.
-/

namespace EventNotif

/-- `shared.enums.NotificationStatus`. -/
inductive NotificationStatus
  | pending
  | sending
  | delivered
  | failed
deriving DecidableEq, Repr

/-- `shared.enums.Priority`. -/
inductive Priority
  | low
  | normal
  | high
  | critical
deriving DecidableEq, Repr

/-- One row of the `notifications` table (`shared.db.models.Notification`),
restricted to the fields read or written by the claims under study.
`created_at`, `content`, ids are omitted: no claim mentions them being
touched by the delivery task. -/
structure Notification where
  channel : String
  status : NotificationStatus
  attempts : Nat
  max_attempts : Nat
  next_retry_at : Option Nat
  delivered_at : Option Nat
  failed_reason : Option String
deriving DecidableEq, Repr

/-- `shared.db.repositories.NotificationRepository.update_status` on the
row it found: sets `status` unconditionally, sets each optional field
only when the corresponding argument is not `None`, increments
`attempts` when asked. -/
def update_status (n : Notification) (status : NotificationStatus)
    (failed_reason : Option String) (delivered_at : Option Nat)
    (next_retry_at : Option Nat) (increment_attempts : Bool) : Notification :=
  { n with
    status := status
    failed_reason := match failed_reason with
      | some r => some r
      | none => n.failed_reason
    delivered_at := match delivered_at with
      | some d => some d
      | none => n.delivered_at
    next_retry_at := match next_retry_at with
      | some t => some t
      | none => n.next_retry_at
    attempts := if increment_attempts then n.attempts + 1 else n.attempts }

/-- Result value of `Provider.send` (`delivery_worker.providers.base`). -/
structure ProviderResult where
  success : Bool
  details : String
deriving DecidableEq, Repr

/-- Observable side effects of one `send_notification` task invocation,
in program order. -/
inductive Effect
  | updateStatus (status : NotificationStatus) (failed_reason : Option String)
      (delivered_at : Option Nat) (next_retry_at : Option Nat)
      (increment_attempts : Bool)
  | commit
  | rateAcquire (channel : String)
  | providerSend (channel : String)
  | publishStatus (status : NotificationStatus)
  | requeue (countdown : Nat)
deriving DecidableEq, Repr

/-- `delivery_worker.tasks._get_backoff`: `schedule[min(attempt-1, len-1)]`
(the default schedule is never empty; `getD _ 0` stands for the list
indexing). -/
def get_backoff (attempt : Nat) (schedule : List Nat) : Nat :=
  schedule.getD (min (attempt - 1) (schedule.length - 1)) 0

/-- Default `DeliveryConfig.retry_backoff_seconds`. -/
def defaultRetryBackoffSeconds : List Nat := [60, 300, 900]

/-- `delivery_worker.tasks._RATE_LIMIT_RETRY_SECONDS`. -/
def rateLimitRetrySeconds : Nat := 10

/-- Did the provider call produce a successful result?  `none` models the
provider raising (the task's `except` clause sets `result = None`);
mirrors `result is not None and result.success`. -/
def providerSucceeded : Option ProviderResult → Bool
  | some r => r.success
  | none => false

/-- `error_reason = result.details if result is not None else "Provider exception"`. -/
def failureDetails : Option ProviderResult → String
  | some r => r.details
  | none => "Provider exception"

/-- `delivery_worker.tasks.send_notification`, as a function of the loaded
row (`none` = `get_by_id` found nothing), the rate limiter's boolean
answer, the provider outcome, the clock, and the retry backoff schedule.
Returns the final state of the row and the effect trace. -/
def send_notification (db : Option Notification) (limiterGrants : Bool)
    (providerResult : Option ProviderResult) (now : Nat)
    (backoff : List Nat) : Option Notification × List Effect :=
  match db with
  | none => (none, [])
  | some n =>
    -- Idempotency gate: skip terminal states.
    if n.status = NotificationStatus.delivered then (some n, [])
    else if n.status = NotificationStatus.failed ∧ n.max_attempts ≤ n.attempts then
      (some n, [])
    else
      -- Transition to SENDING, commit, then the rate-limit round trip.
      let n1 := update_status n NotificationStatus.sending none none none false
      let tr1 := [Effect.updateStatus NotificationStatus.sending none none none false,
                  Effect.commit, Effect.rateAcquire n.channel]
      if limiterGrants = false then
        let n2 := update_status n1 NotificationStatus.pending none none none false
        (some n2,
         tr1 ++ [Effect.updateStatus NotificationStatus.pending none none none false,
                 Effect.commit, Effect.requeue rateLimitRetrySeconds])
      else
        let tr2 := tr1 ++ [Effect.providerSend n.channel]
        if providerSucceeded providerResult then
          let n2 := update_status n1 NotificationStatus.delivered none (some now) none false
          (some n2,
           tr2 ++ [Effect.updateStatus NotificationStatus.delivered none (some now) none false,
                   Effect.commit, Effect.publishStatus NotificationStatus.delivered])
        else
          let error_reason := failureDetails providerResult
          let new_attempts := n.attempts + 1
          if new_attempts < n.max_attempts then
            let b := get_backoff new_attempts backoff
            let n2 := update_status n1 NotificationStatus.pending none none (some now) true
            (some n2,
             tr2 ++ [Effect.updateStatus NotificationStatus.pending none none (some now) true,
                     Effect.commit, Effect.requeue b])
          else
            let n2 := update_status n1 NotificationStatus.failed (some error_reason) none none true
            (some n2,
             tr2 ++ [Effect.updateStatus NotificationStatus.failed (some error_reason) none none true,
                     Effect.commit, Effect.publishStatus NotificationStatus.failed])

/-! ### Rate limiter (`delivery_worker.rate_limiter`, `delivery_worker.config`) -/

/-- `delivery_worker.config.RateLimitConfig`. -/
structure RateLimitConfig where
  email_per_minute : Nat
  sms_per_minute : Nat
  push_per_minute : Nat
  window_seconds : Nat
deriving DecidableEq, Repr

/-- `RateLimitConfig` field defaults. -/
def defaultRateLimitConfig : RateLimitConfig :=
  { email_per_minute := 100, sms_per_minute := 50, push_per_minute := 200,
    window_seconds := 60 }

/-- `RateLimitConfig.limit_for_channel`; `none` models the raised
`ValueError("Unknown channel: ...")`. -/
def limit_for_channel (cfg : RateLimitConfig) (channel : String) : Option Nat :=
  if channel = "email" then some cfg.email_per_minute
  else if channel = "sms" then some cfg.sms_per_minute
  else if channel = "push" then some cfg.push_per_minute
  else none

/-- State of the Redis sorted set at key `ratelimit:<channel>`, plus the
key's time-to-live: `entries` pairs each member with its score (a UNIX
timestamp, modelled as `Int`). -/
structure ZSetState where
  entries : List (String × Int)
  ttl : Option Nat
deriving DecidableEq, Repr

/-- The Lua script `_RATE_LIMIT_LUA` executed by a single Redis `EVAL`:
`ZREMRANGEBYSCORE key -inf window_start` (drops every entry with score
`≤ window_start`), `ZCARD`, conditional `ZADD`+`EXPIRE`.  The fresh
`uuid4` member is passed in as `member`. -/
def rateLimitScript (st : ZSetState) (window_start : Int) (limit : Nat)
    (now : Int) (member : String) (ttl : Nat) : Nat × ZSetState :=
  let kept := st.entries.filter (fun e => window_start < e.2)
  if limit ≤ kept.length then (0, { entries := kept, ttl := st.ttl })
  else (1, { entries := kept ++ [(member, now)], ttl := some ttl })

/-- `RateLimiter.acquire`: computes `window_start = now − window_seconds`,
looks up the per-channel limit (raising on an unknown channel), then runs
the Lua script in one round trip.  `available = false` models the
coordination store being unreachable: the `EVAL` call raises and
`acquire` — which has no exception handler — propagates the error. -/
def RateLimiter.acquire (cfg : RateLimitConfig) (available : Bool)
    (st : ZSetState) (now : Int) (member : String) (channel : String) :
    Except String (Bool × ZSetState) :=
  let window_start := now - (cfg.window_seconds : Int)
  match limit_for_channel cfg channel with
  | none => Except.error ("Unknown channel: " ++ channel)
  | some limit =>
    if available then
      let r := rateLimitScript st window_start limit now member (cfg.window_seconds + 1)
      Except.ok (r.1 != 0, r.2)
    else
      Except.error "redis connection error"

/-! ### Quiet hours (`notification_service.quiet_hours`)

Local clock values (`datetime.time`) are minutes past midnight — the
code reads times at minute granularity (`replace(hour=..., minute=...,
second=0, microsecond=0)`).  Instants are minutes since an arbitrary UTC
epoch, and the IANA timezone string is modelled by the fixed UTC offset
(in minutes) that `astimezone` applies. -/

/-- The local time of day of an instant, in minutes: `now_local.time()`. -/
def timeOfDay (m : Int) : Int := m % 1440

/-- `quiet_hours._is_in_quiet_hours`: plain range when `start ≤ end`,
wrap-around through midnight otherwise. -/
def is_in_quiet_hours (current start_t end_t : Int) : Bool :=
  if start_t ≤ end_t then decide (start_t ≤ current ∧ current < end_t)
  else decide (start_t ≤ current ∨ current < end_t)

/-- `quiet_hours.calculate_eta`: `None` when a bound is missing or the
local time is outside quiet hours; otherwise the end-of-quiet-hours
instant on the local calendar day of `now` (pushed to the next day when
it is not in the future), converted back to UTC. -/
def calculate_eta (quiet_hours_start quiet_hours_end : Option Int)
    (tz_offset : Int) (now_utc : Int) : Option Int :=
  match quiet_hours_start, quiet_hours_end with
  | some s, some e =>
    let now_local := now_utc + tz_offset
    let t := timeOfDay now_local
    if is_in_quiet_hours t s e then
      let end_local := now_local - t + e
      let end_local2 := if end_local ≤ now_local then end_local + 1440 else end_local
      some (end_local2 - tz_offset)
    else none
  | _, _ => none

/-! ### Event handler (`notification_service.handler`, `priority.py`)

Template rendering is abstracted at the call boundary of
`EventHandler._render_content`: each template record carries the
`Option` content that `_render_content` yields for the event being
handled (`none` = the Jinja renderer raised and the channel is
skipped). -/

/-- One row of `notification_templates`, together with the outcome of
rendering it against the current event's payload. -/
structure TemplateRec where
  event_type : String
  channel : String
  is_active : Bool
  rendered : Option (List (String × String))
deriving DecidableEq, Repr

/-- One row of `user_preferences`.  The IANA timezone string is modelled
by its fixed UTC offset in minutes, as in `calculate_eta`. -/
structure UserPreference where
  channels : List String
  quiet_hours_start : Option Int
  quiet_hours_end : Option Int
  tz_offset : Int
deriving DecidableEq, Repr

/-- `UserPreferenceRepository.create_default`: all channels enabled,
timezone UTC, no quiet hours. -/
def default_preferences : UserPreference :=
  { channels := ["email", "sms", "push"], quiet_hours_start := none,
    quiet_hours_end := none, tz_offset := 0 }

/-- `notification_service.priority.get_priority`: the static
event-type → priority table; `none` models the raised `ValueError` for
an unmapped event type. -/
def get_priority (event_type : String) : Option Priority :=
  if event_type = "user.registered" then some Priority.normal
  else if event_type = "order.completed" then some Priority.high
  else if event_type = "payment.failed" then some Priority.critical
  else none

/-- `TemplateRepository.get_active_templates_for_event`: active templates
of the event type.  (The SQL `ORDER BY channel` only fixes the iteration
order of the result; none of the claims under study depend on it.) -/
def get_active_templates_for_event (templates : List TemplateRec)
    (event_type : String) : List TemplateRec :=
  templates.filter (fun t => t.event_type = event_type ∧ t.is_active)

/-- A notification row as built inside `EventHandler.handle`
(status is always `pending`, attempts start at the column default 0). -/
structure CreatedNotification where
  channel : String
  priority : Priority
  status : NotificationStatus
  content : List (String × String)
deriving DecidableEq, Repr

/-- Observable side effects of one `EventHandler.handle` invocation, in
program order.  `sendTask` is the Celery enqueue of the work item keyed
by the created notification's id (identified here by its channel, unique
within one call), with the queue label and optional `eta`. -/
inductive HandlerEffect
  | createDefaultPreferences
  | createNotification (channel : String) (priority : Priority)
      (status : NotificationStatus)
  | sendTask (channel : String) (queue : Priority) (eta : Option Int)
  | commit
  | publishStatus (channel : String) (status : NotificationStatus)
deriving DecidableEq, Repr

/-- The per-template loop body of `EventHandler.handle`: skip channels
already persisted for this event, skip channels the user disabled, skip
render failures, otherwise create the pending row and immediately
dispatch the Celery task (queue = priority, `eta` set when quiet hours
apply). -/
def handle_template (existing_channels : List String)
    (prefs : UserPreference) (priority : Priority) (now_utc : Int)
    (acc : List CreatedNotification × List HandlerEffect) (t : TemplateRec) :
    List CreatedNotification × List HandlerEffect :=
  if t.channel ∈ existing_channels then acc
  else if t.channel ∉ prefs.channels then acc
  else
    match t.rendered with
    | none => acc
    | some content =>
      let eta := calculate_eta prefs.quiet_hours_start prefs.quiet_hours_end
        prefs.tz_offset now_utc
      (acc.1 ++ [⟨t.channel, priority, NotificationStatus.pending, content⟩],
       acc.2 ++ [HandlerEffect.createNotification t.channel priority
                   NotificationStatus.pending,
                 HandlerEffect.sendTask t.channel priority eta])

/-- `EventHandler.handle` for one parsed event, as a function of the
event type, the channels already persisted for this `event_id`, the
stored user preferences (`none` = row absent, defaults created), the
template table, and the clock.  Returns the created notifications and
the effect trace, or `none` when `get_priority` raises.  Note the
`commit` is emitted after the loop — i.e. after every `sendTask`. -/
def handle (event_type : String) (existing_channels : List String)
    (preferences : Option UserPreference) (templates : List TemplateRec)
    (now_utc : Int) :
    Option (List CreatedNotification × List HandlerEffect) :=
  match get_priority event_type with
  | none => none
  | some priority =>
    let prefs := match preferences with
      | some p => p
      | none => default_preferences
    let prefEffects := match preferences with
      | some _ => ([] : List HandlerEffect)
      | none => [HandlerEffect.createDefaultPreferences]
    let active := get_active_templates_for_event templates event_type
    let res := active.foldl
      (handle_template existing_channels prefs priority now_utc)
      ([], prefEffects)
    some (res.1,
      res.2 ++ [HandlerEffect.commit] ++
        res.1.map (fun n => HandlerEffect.publishStatus n.channel n.status))

end EventNotif

namespace EventNotif

/-- C1: a notification loaded in status `delivered`, or in `failed` with
`attempts ≥ max_attempts`, makes `send_notification` return successfully
with an empty effect trace: no status update, no rate-limiter
acquisition, no provider call, no status publication, and the row is
unchanged. -/
theorem send_notification_terminal_no_effects (n : Notification)
    (g : Bool) (r : Option ProviderResult) (now : Nat) (backoff : List Nat)
    (h : n.status = NotificationStatus.delivered ∨
      (n.status = NotificationStatus.failed ∧ n.max_attempts ≤ n.attempts)) :
    send_notification (some n) g r now backoff = (some n, []) := by
  rcases h with h | ⟨h1, h2⟩
  · simp [send_notification, h]
  · rcases hd : n.status with _ | _ | _ | _ <;> simp [hd] at h1
    simp [send_notification, hd, h2]

theorem send_notification_terminal_no_effects_witness :
    send_notification
      (some ⟨"email", NotificationStatus.delivered, 1, 3, none, some 42, none⟩)
      true (some ⟨true, "ok"⟩) 100 defaultRetryBackoffSeconds
      = (some ⟨"email", NotificationStatus.delivered, 1, 3, none, some 42, none⟩, []) :=
  send_notification_terminal_no_effects _ _ _ _ _ (Or.inl rfl)

/-- C8: when the rate limiter denies, the task sets the row to `sending`,
reverts it to `pending`, requeues the same work item with the fixed
10-second delay, and changes no other field (`attempts`, `next_retry_at`,
`delivered_at`, `failed_reason` keep their loaded values); the trace holds
no provider call and no status publication. -/
theorem send_notification_rate_limited_frame (n : Notification)
    (r : Option ProviderResult) (now : Nat) (backoff : List Nat)
    (h1 : n.status ≠ NotificationStatus.delivered)
    (h2 : ¬ (n.status = NotificationStatus.failed ∧ n.max_attempts ≤ n.attempts)) :
    send_notification (some n) false r now backoff =
      (some { n with status := NotificationStatus.pending },
       [Effect.updateStatus NotificationStatus.sending none none none false,
        Effect.commit, Effect.rateAcquire n.channel,
        Effect.updateStatus NotificationStatus.pending none none none false,
        Effect.commit, Effect.requeue 10]) ∧
      (∀ ch, Effect.providerSend ch ∉ (send_notification (some n) false r now backoff).2) ∧
      (∀ s, Effect.publishStatus s ∉ (send_notification (some n) false r now backoff).2) := by
  have hmain : send_notification (some n) false r now backoff =
      (some { n with status := NotificationStatus.pending },
       [Effect.updateStatus NotificationStatus.sending none none none false,
        Effect.commit, Effect.rateAcquire n.channel,
        Effect.updateStatus NotificationStatus.pending none none none false,
        Effect.commit, Effect.requeue 10]) := by
    simp [send_notification, h1, h2, update_status, rateLimitRetrySeconds]
  refine ⟨hmain, ?_, ?_⟩ <;> intro x <;> rw [hmain] <;> simp

theorem send_notification_rate_limited_frame_witness :
    send_notification
      (some ⟨"sms", NotificationStatus.pending, 1, 3, some 7, none, some "old"⟩)
      false none 500 defaultRetryBackoffSeconds =
      (some ⟨"sms", NotificationStatus.pending, 1, 3, some 7, none, some "old"⟩,
       [Effect.updateStatus NotificationStatus.sending none none none false,
        Effect.commit, Effect.rateAcquire "sms",
        Effect.updateStatus NotificationStatus.pending none none none false,
        Effect.commit, Effect.requeue 10]) :=
  (send_notification_rate_limited_frame
    ⟨"sms", NotificationStatus.pending, 1, 3, some 7, none, some "old"⟩
    none 500 defaultRetryBackoffSeconds (by decide) (by decide)).1

/-- C5: on a provider failure (returned `success=false` or a raised
exception), with `new_attempts = attempts + 1`: when
`new_attempts < max_attempts` the row becomes `pending` with
`next_retry_at = now` and `attempts` incremented and the work item is
requeued with delay `backoff[min(new_attempts - 1, len - 1)]` from the
default schedule `[60, 300, 900]`; otherwise the row becomes `failed`
with `failed_reason` set to the failure details, `attempts` incremented,
and a `failed` status record is published. -/
theorem send_notification_provider_failure (n : Notification)
    (r : Option ProviderResult) (now : Nat)
    (h1 : n.status ≠ NotificationStatus.delivered)
    (h2 : ¬ (n.status = NotificationStatus.failed ∧ n.max_attempts ≤ n.attempts))
    (hf : providerSucceeded r = false) :
    (n.attempts + 1 < n.max_attempts →
      send_notification (some n) true r now defaultRetryBackoffSeconds =
        (some { n with
                  status := NotificationStatus.pending,
                  next_retry_at := some now,
                  attempts := n.attempts + 1 },
         [Effect.updateStatus NotificationStatus.sending none none none false,
          Effect.commit, Effect.rateAcquire n.channel,
          Effect.providerSend n.channel,
          Effect.updateStatus NotificationStatus.pending none none (some now) true,
          Effect.commit,
          Effect.requeue (defaultRetryBackoffSeconds.getD
            (min (n.attempts + 1 - 1) (defaultRetryBackoffSeconds.length - 1)) 0)])) ∧
    (¬ n.attempts + 1 < n.max_attempts →
      send_notification (some n) true r now defaultRetryBackoffSeconds =
        (some { n with
                  status := NotificationStatus.failed,
                  failed_reason := some (failureDetails r),
                  attempts := n.attempts + 1 },
         [Effect.updateStatus NotificationStatus.sending none none none false,
          Effect.commit, Effect.rateAcquire n.channel,
          Effect.providerSend n.channel,
          Effect.updateStatus NotificationStatus.failed (some (failureDetails r)) none none true,
          Effect.commit, Effect.publishStatus NotificationStatus.failed])) := by
  constructor <;> intro hlt <;>
    simp [send_notification, h1, h2, hf, update_status, get_backoff, hlt]

theorem send_notification_provider_failure_witness :
    (0 + 1 < 3 ∧
      send_notification
        (some ⟨"email", NotificationStatus.pending, 0, 3, none, none, none⟩)
        true (some ⟨false, "smtp 451"⟩) 1000 defaultRetryBackoffSeconds =
        (some ⟨"email", NotificationStatus.pending, 1, 3, some 1000, none, none⟩,
         [Effect.updateStatus NotificationStatus.sending none none none false,
          Effect.commit, Effect.rateAcquire "email",
          Effect.providerSend "email",
          Effect.updateStatus NotificationStatus.pending none none (some 1000) true,
          Effect.commit, Effect.requeue 60])) := by
  refine ⟨by decide, ?_⟩
  have h := (send_notification_provider_failure
    ⟨"email", NotificationStatus.pending, 0, 3, none, none, none⟩
    (some ⟨false, "smtp 451"⟩) 1000 (by decide) (by decide) rfl).1 (by decide)
  simpa using h

/-- C10: the idempotency gate stops only the two terminal entry states.
For a row loaded as `pending`, `sending`, or `failed` with
`attempts < max_attempts`, the task transitions it to `sending`, and if
the rate limiter grants, exactly one provider call occurs — so a
redelivered work item for a row stuck in `sending` drives a second
provider invocation. -/
theorem send_notification_nonterminal_proceeds (n : Notification)
    (g : Bool) (r : Option ProviderResult) (now : Nat) (backoff : List Nat)
    (h : n.status = NotificationStatus.pending ∨
         n.status = NotificationStatus.sending ∨
         (n.status = NotificationStatus.failed ∧ n.attempts < n.max_attempts)) :
    Effect.updateStatus NotificationStatus.sending none none none false ∈
        (send_notification (some n) g r now backoff).2 ∧
    (g = true →
      ((send_notification (some n) g r now backoff).2.count
        (Effect.providerSend n.channel)) = 1) := by
  have h1 : n.status ≠ NotificationStatus.delivered := by
    rcases h with h | h | ⟨h, _⟩ <;> simp [h]
  have h2 : ¬ (n.status = NotificationStatus.failed ∧ n.max_attempts ≤ n.attempts) := by
    rcases h with h | h | ⟨h, hlt⟩ <;> simp [h]
    omega
  constructor
  · rcases hg : g with _ | _
    · simp [send_notification, h1, h2]
    · rcases hs : providerSucceeded r with _ | _ <;>
        by_cases hlt : n.attempts + 1 < n.max_attempts <;>
        simp [send_notification, h1, h2, hs, hlt]
  · intro hg
    subst hg
    rcases hs : providerSucceeded r with _ | _ <;>
      by_cases hlt : n.attempts + 1 < n.max_attempts <;>
      simp [send_notification, h1, h2, hs, hlt, List.count_cons, List.count_append]

theorem send_notification_nonterminal_proceeds_witness :
    Effect.updateStatus NotificationStatus.sending none none none false ∈
      (send_notification
        (some ⟨"push", NotificationStatus.sending, 1, 3, none, none, none⟩)
        true (some ⟨true, "ok"⟩) 9 defaultRetryBackoffSeconds).2 ∧
    ((send_notification
        (some ⟨"push", NotificationStatus.sending, 1, 3, none, none, none⟩)
        true (some ⟨true, "ok"⟩) 9 defaultRetryBackoffSeconds).2.count
      (Effect.providerSend "push")) = 1 := by
  have h := send_notification_nonterminal_proceeds
    ⟨"push", NotificationStatus.sending, 1, 3, none, none, none⟩
    true (some ⟨true, "ok"⟩) 9 defaultRetryBackoffSeconds (Or.inr (Or.inl rfl))
  exact ⟨h.1, h.2 rfl⟩

/-- C9 counterexample: `NotificationRepository.update_status` has no
terminal-state guard — invoked on a row whose loaded status is
`delivered`, it overwrites the status (and here also increments
`attempts`), contradicting the claim that it never changes fields of a
delivered notification. -/
theorem update_status_mutates_delivered :
    (update_status ⟨"email", NotificationStatus.delivered, 1, 3, none, some 50, none⟩
        NotificationStatus.pending none none none true).status
      ≠ NotificationStatus.delivered ∧
    (update_status ⟨"email", NotificationStatus.delivered, 1, 3, none, some 50, none⟩
        NotificationStatus.pending none none none true).attempts ≠ 1 := by
  decide

/-- C9 amended: terminal immutability is enforced at the call site, not in
the repository: `send_notification` leaves a row loaded as `delivered`,
or as `failed` with exhausted attempts, completely unchanged, so via the
delivery task no notification leaves a terminal state. -/
theorem send_notification_preserves_terminal (n : Notification)
    (g : Bool) (r : Option ProviderResult) (now : Nat) (backoff : List Nat)
    (h : n.status = NotificationStatus.delivered ∨
      (n.status = NotificationStatus.failed ∧ n.max_attempts ≤ n.attempts)) :
    (send_notification (some n) g r now backoff).1 = some n := by
  rcases h with h | ⟨h1, h2⟩
  · simp [send_notification, h]
  · rcases hd : n.status with _ | _ | _ | _ <;> simp [hd] at h1
    simp [send_notification, hd, h2]

theorem send_notification_preserves_terminal_witness :
    (send_notification
      (some ⟨"push", NotificationStatus.failed, 3, 3, none, none, some "bounced"⟩)
      true (some ⟨true, "ok"⟩) 77 defaultRetryBackoffSeconds).1 =
      some ⟨"push", NotificationStatus.failed, 3, 3, none, none, some "bounced"⟩ :=
  send_notification_preserves_terminal _ _ _ _ _ (Or.inr ⟨rfl, by decide⟩)

/-- Helper: the first component (created notifications) of the handler's
per-template fold is the accumulator followed by one entry per template
that passes the idempotency, preference and rendering filters. -/
theorem foldl_handle_template_fst (existing : List String)
    (prefs : UserPreference) (priority : Priority) (now : Int)
    (ts : List TemplateRec) :
    ∀ acc, (ts.foldl (handle_template existing prefs priority now) acc).1 =
      acc.1 ++ ts.filterMap (fun t =>
        if t.channel ∈ existing then none
        else if t.channel ∈ prefs.channels then
          t.rendered.map (fun c =>
            (⟨t.channel, priority, NotificationStatus.pending, c⟩ :
              CreatedNotification))
        else none) := by
  induction ts with
  | nil => intro acc; simp
  | cons t ts ih =>
    intro acc
    rw [List.foldl_cons, List.filterMap_cons]
    by_cases h1 : t.channel ∈ existing
    · simp [handle_template, h1, ih]
    · by_cases h2 : t.channel ∈ prefs.channels
      · rcases hr : t.rendered with _ | c
        · simp [handle_template, h1, h2, hr, ih]
        · simp [handle_template, h1, h2, hr, ih]
      · simp [handle_template, h1, h2, ih]

/-- C4: for a valid event, `handle` creates exactly one pending
notification per active template of the event type whose channel is
enabled for the user, not already persisted for this `event_id`, and
whose rendering succeeds (a render failure skips only that channel);
every created notification carries the statically mapped priority
(`user.registered → normal`, `order.completed → high`,
`payment.failed → critical`), and none is created for a channel outside
the user's enabled set. -/
theorem handle_created_characterization (event_type : String)
    (existing_channels : List String) (prefs : UserPreference)
    (templates : List TemplateRec) (now_utc : Int) (priority : Priority)
    (hp : get_priority event_type = some priority) :
    ∃ created trace,
      handle event_type existing_channels (some prefs) templates now_utc
        = some (created, trace) ∧
      created = (get_active_templates_for_event templates event_type).filterMap
        (fun t =>
          if t.channel ∈ existing_channels then none
          else if t.channel ∈ prefs.channels then
            t.rendered.map (fun c =>
              (⟨t.channel, priority, NotificationStatus.pending, c⟩ :
                CreatedNotification))
          else none) ∧
      (∀ n ∈ created, n.channel ∈ prefs.channels ∧
        n.channel ∉ existing_channels ∧
        n.status = NotificationStatus.pending ∧ n.priority = priority) ∧
      (get_priority "user.registered" = some Priority.normal ∧
       get_priority "order.completed" = some Priority.high ∧
       get_priority "payment.failed" = some Priority.critical) := by
  have hfold := foldl_handle_template_fst existing_channels prefs priority
    now_utc (get_active_templates_for_event templates event_type)
    ([], [])
  simp only [List.nil_append] at hfold
  refine ⟨(List.foldl (handle_template existing_channels prefs priority now_utc)
      ([], []) (get_active_templates_for_event templates event_type)).1,
    (List.foldl (handle_template existing_channels prefs priority now_utc)
      ([], []) (get_active_templates_for_event templates event_type)).2
      ++ [HandlerEffect.commit]
      ++ (List.foldl (handle_template existing_channels prefs priority now_utc)
          ([], []) (get_active_templates_for_event templates event_type)).1.map
          (fun n => HandlerEffect.publishStatus n.channel n.status),
    ?_, hfold, ?_, by decide⟩
  · simp [handle, hp]
  · intro n hn
    rw [hfold] at hn
    simp only [List.mem_filterMap] at hn
    obtain ⟨t, -, ht⟩ := hn
    by_cases h1 : t.channel ∈ existing_channels
    · simp [h1] at ht
    · by_cases h2 : t.channel ∈ prefs.channels
      · rcases hr : t.rendered with _ | c <;> simp [h1, h2, hr] at ht
        rcases ht with ⟨-, rfl⟩
        exact ⟨h2, h1, rfl, rfl⟩
      · simp [h1, h2] at ht

theorem handle_created_characterization_witness :
    ∃ created trace,
      handle "order.completed" ["push"]
        (some ⟨["email", "push"], none, none, 0⟩)
        [⟨"order.completed", "email", true, some [("body", "b1")]⟩,
         ⟨"order.completed", "push", true, some [("body", "b2")]⟩,
         ⟨"order.completed", "sms", true, some [("body", "b3")]⟩,
         ⟨"user.registered", "email", true, some [("body", "b4")]⟩] 0
        = some (created, trace) ∧
      created = [⟨"email", Priority.high, NotificationStatus.pending,
        [("body", "b1")]⟩] := by
  obtain ⟨created, trace, h1, h2, -, -⟩ :=
    handle_created_characterization "order.completed" ["push"]
      ⟨["email", "push"], none, none, 0⟩
      [⟨"order.completed", "email", true, some [("body", "b1")]⟩,
       ⟨"order.completed", "push", true, some [("body", "b2")]⟩,
       ⟨"order.completed", "sms", true, some [("body", "b3")]⟩,
       ⟨"user.registered", "email", true, some [("body", "b4")]⟩] 0
      Priority.high (by decide)
  refine ⟨created, trace, h1, ?_⟩
  rw [h2]
  decide

/-- C3 (the claim fails on the code): `EventHandler.handle` dispatches
the Celery work item for each created notification inside the
per-template loop, before `session.commit()` runs — here evaluated on a
concrete event with one applicable template, the `sendTask` effect
precedes the `commit` effect in the trace.  (The work item is keyed by
the created notification, carries queue label = priority and no `eta`
since no quiet hours apply.) -/
theorem handle_enqueues_before_commit :
    handle "user.registered" [] (some ⟨["email"], none, none, 0⟩)
        [⟨"user.registered", "email", true, some [("body", "hi")]⟩] 0
      = some ([⟨"email", Priority.normal, NotificationStatus.pending,
                [("body", "hi")]⟩],
        [HandlerEffect.createNotification "email" Priority.normal
           NotificationStatus.pending,
         HandlerEffect.sendTask "email" Priority.normal none,
         HandlerEffect.commit,
         HandlerEffect.publishStatus "email" NotificationStatus.pending]) ∧
    (handle "user.registered" [] (some ⟨["email"], none, none, 0⟩)
        [⟨"user.registered", "email", true, some [("body", "hi")]⟩] 0).map
      (fun res => decide
        (res.2.indexOf (HandlerEffect.sendTask "email" Priority.normal none)
          < res.2.indexOf HandlerEffect.commit)) = some true := by
  constructor
  · decide
  · decide

/-- C2: when the coordination store is unavailable, `acquire` does not
return `false` — it propagates the connection error (there is no
exception handler in `RateLimiter.acquire`), so the claimed fail-closed
behaviour is absent from the code. -/
theorem acquire_unavailable_propagates_error :
    RateLimiter.acquire defaultRateLimitConfig false ⟨[], none⟩ 1000 "m0" "email"
      = Except.error "redis connection error" ∧
    ∀ st : ZSetState,
      RateLimiter.acquire defaultRateLimitConfig false ⟨[], none⟩ 1000 "m0" "email"
        ≠ Except.ok (false, st) := by
  exact ⟨rfl, fun st h => by simp [RateLimiter.acquire, limit_for_channel] at h⟩

/-- C6: on an available store, `acquire` implements the sliding window:
it keeps exactly the entries with score `> now − window_seconds`, denies
when the surviving cardinality reaches the per-channel limit, and
otherwise appends one member at score `now` and refreshes the TTL to
`window_seconds + 1`; the default limits are email 100, sms 50, push 200
over a 60-second window; an unknown channel is an error, never a grant. -/
theorem acquire_sliding_window (cfg : RateLimitConfig) (st : ZSetState)
    (now : Int) (member : String) (channel : String) (limit : Nat)
    (h : limit_for_channel cfg channel = some limit) :
    (RateLimiter.acquire cfg true st now member channel =
      (let kept := st.entries.filter
        (fun e => now - (cfg.window_seconds : Int) < e.2)
      if kept.length < limit then
        Except.ok (true, ⟨kept ++ [(member, now)], some (cfg.window_seconds + 1)⟩)
      else Except.ok (false, ⟨kept, st.ttl⟩))) ∧
    (limit_for_channel defaultRateLimitConfig "email" = some 100 ∧
     limit_for_channel defaultRateLimitConfig "sms" = some 50 ∧
     limit_for_channel defaultRateLimitConfig "push" = some 200 ∧
     defaultRateLimitConfig.window_seconds = 60) ∧
    (∀ ch, limit_for_channel cfg ch = none →
      RateLimiter.acquire cfg true st now member ch =
        Except.error ("Unknown channel: " ++ ch)) := by
  refine ⟨?_, ⟨rfl, rfl, rfl, rfl⟩, ?_⟩
  · by_cases hlt :
      (st.entries.filter (fun e => now - (cfg.window_seconds : Int) < e.2)).length < limit
    · simp [RateLimiter.acquire, rateLimitScript, h, hlt, Nat.not_le.mpr hlt]
    · simp only [RateLimiter.acquire, rateLimitScript, h, hlt]
      simp [Nat.le_of_not_lt hlt]
  · intro ch hch
    simp [RateLimiter.acquire, hch]

theorem acquire_sliding_window_witness :
    RateLimiter.acquire ⟨3, 1, 2, 60⟩ true
        ⟨[("a", 900), ("b", 950), ("c", 945)], some 5⟩ 1000 "m1" "email" =
      Except.ok (true, ⟨[("b", 950), ("c", 945), ("m1", 1000)], some 61⟩) := by
  have h := (acquire_sliding_window ⟨3, 1, 2, 60⟩
    ⟨[("a", 900), ("b", 950), ("c", 945)], some 5⟩ 1000 "m1" "email" 3 rfl).1
  simpa using h

/-- C7: `calculate_eta` returns `none` when a quiet-hours bound is
missing or the local time of day lies outside quiet hours (plain range
for `start ≤ end`, wrap-around otherwise, exactly as
`is_in_quiet_hours` decides); inside quiet hours it returns the next
occurrence of `end` in the local timezone converted to UTC — the unique
instant `u` in `(now, now + 1 day]` whose local time of day is `end`,
falling on the same local calendar day when `end` is still ahead of the
local clock and on the next day otherwise. -/
theorem calculate_eta_spec (s e tz_offset now_utc : Int)
    (he0 : 0 ≤ e) (he1 : e < 1440) :
    (∀ qe, calculate_eta none qe tz_offset now_utc = none) ∧
    (∀ qs, calculate_eta qs none tz_offset now_utc = none) ∧
    (is_in_quiet_hours (timeOfDay (now_utc + tz_offset)) s e = false →
      calculate_eta (some s) (some e) tz_offset now_utc = none) ∧
    (is_in_quiet_hours (timeOfDay (now_utc + tz_offset)) s e = true →
      ∃ u, calculate_eta (some s) (some e) tz_offset now_utc = some u ∧
        timeOfDay (u + tz_offset) = e ∧
        now_utc < u ∧ u ≤ now_utc + 1440 ∧
        (∀ v, now_utc < v → timeOfDay (v + tz_offset) = e → u ≤ v) ∧
        (if timeOfDay (now_utc + tz_offset) < e
         then u + tz_offset =
           now_utc + tz_offset - timeOfDay (now_utc + tz_offset) + e
         else u + tz_offset =
           now_utc + tz_offset - timeOfDay (now_utc + tz_offset) + e + 1440)) := by
  have h1 : 0 ≤ (now_utc + tz_offset) % 1440 :=
    Int.emod_nonneg _ (by norm_num)
  have h2 : (now_utc + tz_offset) % 1440 < 1440 :=
    Int.emod_lt_of_pos _ (by norm_num)
  refine ⟨fun qe => by cases qe <;> rfl, fun qs => by cases qs <;> rfl, ?_, ?_⟩
  · intro hq
    simp [calculate_eta, hq]
  · intro hq
    simp only [calculate_eta, timeOfDay] at hq ⊢
    rw [hq]
    by_cases hc :
        now_utc + tz_offset - (now_utc + tz_offset) % 1440 + e ≤ now_utc + tz_offset
    · refine ⟨now_utc + tz_offset - (now_utc + tz_offset) % 1440 + e + 1440 - tz_offset,
        by simp [hc], by omega, by omega, by omega, ?_, ?_⟩
      · intro v hv1 hv2
        omega
      · rw [if_neg (by omega)]
        omega
    · refine ⟨now_utc + tz_offset - (now_utc + tz_offset) % 1440 + e - tz_offset,
        by simp [hc], by omega, by omega, by omega, ?_, ?_⟩
      · intro v hv1 hv2
        omega
      · rw [if_pos (by omega)]
        omega

theorem calculate_eta_spec_witness :
    (0 : Int) ≤ 480 ∧ (480 : Int) < 1440 ∧
    is_in_quiet_hours (timeOfDay ((1410 : Int) + 0)) 1320 480 = true ∧
    ∃ u, calculate_eta (some 1320) (some 480) 0 1410 = some u ∧
      timeOfDay (u + 0) = 480 ∧ (1410 : Int) < u ∧ u ≤ 1410 + 1440 := by
  refine ⟨by norm_num, by norm_num, by decide, ?_⟩
  obtain ⟨u, hu1, hu2, hu3, hu4, -, -⟩ :=
    (calculate_eta_spec 1320 480 0 1410 (by norm_num) (by norm_num)).2.2.2 (by decide)
  exact ⟨u, hu1, hu2, hu3, hu4⟩

end EventNotif
